import Mathlib

/-!
Verification of the planckedit repository (a minimal desktop text editor,
implemented three times over: src/planckedit-tkinter.py, src/planckedit-pyside.py
and src/plankedit-pyside.py; src/planckedit.py is a stripped-down shell with
stubbed file operations and plays no role in the claims).

The development shallowly embeds the file/stash/config state machine of the
PlanckEdit class and the indent handlers of the CodeEditor class.  Each
definition carries a doc comment naming the Python function it embeds.
Dialog outcomes and I/O success are supplied by an explicit environment
record, since the Python code obtains them from the GUI toolkit and the OS.
-/

namespace Planckedit

/-! ## JSON values and Python dictionaries (for the config file) -/

/-- A JSON value as far as the config code can observe one: the config keys
hold booleans and integers, and corrupt files may store strings. -/
inductive JValue where
  | jbool (b : Bool)
  | jint (n : Int)
  | jstr (s : String)
deriving DecidableEq, Repr

/-- A Python dict with string keys, as an association list without duplicate
keys (Python dicts never hold a key twice). -/
abbrev Dict := List (String × JValue)

/-- Python dict lookup `d[k]` / `k in d`: first (unique) binding of the key. -/
def dictGet : Dict → String → Option JValue
  | [], _ => none
  | (k, v) :: rest, key => if k = key then some v else dictGet rest key

/-- Python dict assignment `d[k] = v`: replace the binding in place if the key
exists, append it otherwise. -/
def dictSet : Dict → String → JValue → Dict
  | [], key, v => [(key, v)]
  | (k, w) :: rest, key, v =>
      if k = key then (k, v) :: rest else (k, w) :: dictSet rest key v

/-- Python `d.update(e)` for a dict argument: assign every binding of `e`
into `d`, in order. -/
def dictUpdate (d : Dict) (e : Dict) : Dict :=
  e.foldl (fun acc kv => dictSet acc kv.1 kv.2) d

/-! ## The config file and load_config -/

/-- What the config file on disk can look like, as far as `load_config` can
distinguish: absent, unreadable/unparseable (an `IOError` or
`json.JSONDecodeError` inside the `with open ... json.load` block), parseable
to a bare number (valid JSON that is not an object), or parseable to a JSON
object with the given entries. -/
inductive ConfigFile where
  | absent
  | invalid
  | scalar (n : Int)
  | object (entries : Dict)
deriving DecidableEq, Repr

/-- The default config dict built at the top of both `load_config` variants:
`{"word_wrap": True, "tab_size": 4, "use_spaces": True}`. -/
def defaultConfig : Dict :=
  [("word_wrap", .jbool true), ("tab_size", .jint 4), ("use_spaces", .jbool true)]

/-- `PlanckEdit.load_config` of src/planckedit-tkinter.py (lines 486-493):
return the defaults when the file is absent; otherwise
`default.update(json.load(f))` under a bare `except:` that catches every
exception and returns the defaults — including the `TypeError` that
`dict.update` raises when `json.load` produced a bare number. -/
def load_config_tk : ConfigFile → Dict
  | .absent => defaultConfig
  | .invalid => defaultConfig
  | .scalar _ => defaultConfig
  | .object e => dictUpdate defaultConfig e

/-- `PlanckEdit.load_config` of src/planckedit-pyside.py (lines 420-436) and
src/plankedit-pyside.py (lines 503-521): same merge, but the handler catches
only `(json.JSONDecodeError, IOError)`.  When the file parses to a bare
number, `default_config.update(loaded)` raises `TypeError` (an int is not
iterable), which is not caught and propagates out of `load_config`. -/
def load_config_ps : ConfigFile → Except String Dict
  | .absent => .ok defaultConfig
  | .invalid => .ok defaultConfig
  | .scalar _ => .error "TypeError"
  | .object e => .ok (dictUpdate defaultConfig e)

/-- `tab_size` is an integer between 1 and 16 in the given config dict. -/
def tab_size_ok (d : Dict) : Bool :=
  match dictGet d "tab_size" with
  | some (.jint n) => decide (1 ≤ n) && decide (n ≤ 16)
  | _ => false

/-- Models the Tab Size dialog (`simpledialog.askinteger(..., minvalue=1,
maxvalue=16)` in the tkinter variant, `QInputDialog.getInt(..., 1, 16, 1)` in
the PySide variants): the dialog only ever returns an integer within the
given bounds, or nothing on cancel.  `req` is what the user asks for. -/
def askinteger_1_16 (req : Option Int) : Option Int :=
  match req with
  | some n => if 1 ≤ n ∧ n ≤ 16 then some n else none
  | none => none

/-- `PlanckEdit.change_tab_size` of src/planckedit-tkinter.py
(lines 517-523), restricted to its effect on the config dict: ask the dialog
for an integer in [1,16]; if one is returned, store it under `"tab_size"`
(the `if num:` test cannot see 0, since the dialog lower bound is 1).  The
PySide variants (planckedit-pyside.py 469-485, plankedit-pyside.py 558-577)
perform the same dict update under `if ok:`. -/
def change_tab_size (d : Dict) (req : Option Int) : Dict :=
  match askinteger_1_16 req with
  | some num => dictSet d "tab_size" (.jint num)
  | none => d

/-! ### Dictionary lemmas -/

theorem dictGet_dictSet_self (d : Dict) (k : String) (v : JValue) :
    dictGet (dictSet d k v) k = some v := by
  induction d with
  | nil => simp [dictSet, dictGet]
  | cons hd tl ih =>
      obtain ⟨k0, v0⟩ := hd
      by_cases h : k0 = k
      · simp [dictSet, dictGet, h]
      · simp [dictSet, dictGet, h, ih]

theorem dictGet_dictSet_other (d : Dict) (k k' : String) (v : JValue)
    (h : k ≠ k') : dictGet (dictSet d k v) k' = dictGet d k' := by
  induction d with
  | nil => simp [dictSet, dictGet, h]
  | cons hd tl ih =>
      obtain ⟨k0, v0⟩ := hd
      by_cases h0 : k0 = k
      · subst h0
        simp [dictSet, dictGet, h]
      · simp [dictSet, dictGet, h0, ih]

theorem dictGet_dictUpdate_not_mem (e : Dict) (d : Dict) (k : String)
    (h : k ∉ e.map Prod.fst) :
    dictGet (dictUpdate d e) k = dictGet d k := by
  induction e generalizing d with
  | nil => simp [dictUpdate]
  | cons hd tl ih =>
      obtain ⟨k0, v0⟩ := hd
      simp only [List.map_cons, List.mem_cons] at h
      push_neg at h
      have h1 : k0 ≠ k := fun hk => h.1 hk.symm
      have : dictUpdate d ((k0, v0) :: tl) = dictUpdate (dictSet d k0 v0) tl := rfl
      rw [this, ih _ h.2, dictGet_dictSet_other _ _ _ _ h1]

theorem dictGet_dictUpdate (d e : Dict) (k : String)
    (hnd : (e.map Prod.fst).Nodup) :
    dictGet (dictUpdate d e) k =
      match dictGet e k with
      | some v => some v
      | none => dictGet d k := by
  induction e generalizing d with
  | nil => simp [dictUpdate, dictGet]
  | cons hd tl ih =>
      obtain ⟨k0, v0⟩ := hd
      simp only [List.map_cons, List.nodup_cons] at hnd
      have step : dictUpdate d ((k0, v0) :: tl) = dictUpdate (dictSet d k0 v0) tl := rfl
      by_cases hk : k0 = k
      · subst hk
        have : dictGet ((k0, v0) :: tl) k0 = some v0 := by simp [dictGet]
        rw [step, this, dictGet_dictUpdate_not_mem _ _ _ hnd.1,
          dictGet_dictSet_self]
      · have : dictGet ((k0, v0) :: tl) k = dictGet tl k := by simp [dictGet, hk]
        rw [step, this, ih _ hnd.2, dictGet_dictSet_other _ _ _ _ hk]

/-! ## The editor state machine

The PlanckEdit window state that the file/stash operations read and write:
the current file path (`None` = untitled), the dirty flag (`self.is_dirty` in
the tkinter variant, `document().isModified()` in the PySide variants —
the two are kept in sync and play the same role in every cited function),
the buffer text (`editor.get_text()` / `toPlainText()`), the contents of
stash.txt on disk (`none` = the file does not exist), and the window title.
Ordinary files on disk are not tracked: whether a read or write of them
succeeds is supplied by the environment below. -/

structure St where
  current_file : Option String
  is_dirty : Bool
  buffer : String
  stash : Option String
  title : String
deriving DecidableEq, Repr

/-- Outcome of the Save/Discard/Cancel message box raised by `maybe_save`
(`askyesnocancel` returning True / False / None in the tkinter variant,
`QMessageBox.Save` / `Discard` / `Cancel` in the PySide variants). -/
inductive PromptResp where
  | save
  | discard
  | cancel
deriving DecidableEq, Repr

/-- Environment for one user-level operation: what the dialogs return and
whether each kind of I/O the operation may attempt succeeds.  `readText` is
the content delivered by a successful file read. -/
structure Env where
  promptResp : PromptResp
  saveDialog : Option String
  openDialog : Option String
  writeOk : Bool
  readOk : Bool
  readText : String
  stashWriteOk : Bool
  stashReadOk : Bool
deriving DecidableEq, Repr

/-- `os.path.basename`: the part of the path after the last separator. -/
def basename (p : String) : String :=
  ((p.data.reverse.takeWhile (fun c => c ≠ '/')).reverse).asString

/-- `PlanckEdit.update_title` (tkinter 322-332, planckedit-pyside 400-412,
plankedit-pyside 480-494): "planckedit - basename" or
"planckedit - Untitled", with a trailing asterisk when dirty. -/
def update_title (st : St) : St :=
  let base :=
    match st.current_file with
    | some f => "planckedit - " ++ basename f
    | none => "planckedit - Untitled"
  { st with title := base ++ (if st.is_dirty then "*" else "") }

/-- `PlanckEdit.stash_file` (tkinter 430-438, planckedit-pyside 322-334,
plankedit-pyside 395-417): write the buffer to stash.txt; on success set the
window title to "planckedit - Stashed!"; on an I/O error print and change
nothing.  The current file, dirty flag and buffer are not touched. -/
def stash_file (st : St) (env : Env) : St :=
  if env.stashWriteOk then
    { st with stash := some st.buffer, title := "planckedit - Stashed!" }
  else st

/-- `PlanckEdit.clear_stash_file` (tkinter 473-477, planckedit-pyside
377-384, plankedit-pyside 467-478): `os.remove(stash_path)` if the stash file
exists, otherwise do nothing; either way the stash file is absent after. -/
def clear_stash_file (st : St) : St :=
  { st with stash := none }

/-- The body of `PlanckEdit.save_file` for a named document (tkinter 388-397,
planckedit-pyside 269-279, plankedit-pyside 324-334): write the buffer to the
current file; on success clear the dirty flag, update the title and return
True; on an I/O error print, change nothing and return False.  (The
`current_file is None` dispatch of `save_file` is in `save_file` below; the
Python code is one function, split here because `save_file` and
`save_file_as` call each other.) -/
def save_file_named (st : St) (env : Env) : Bool × St :=
  if env.writeOk then (true, update_title { st with is_dirty := false })
  else (false, st)

/-- `PlanckEdit.save_file_as` (tkinter 399-409, planckedit-pyside 281-294,
plankedit-pyside 336-357): remember whether the document was untitled, ask
the save dialog for a path; on cancel return False.  Otherwise set
`current_file` to the chosen path FIRST, then attempt `save_file`; on
success, if the document had been untitled, delete the stash file; on a
failed write return False with `current_file` left at the chosen path (the
code does not restore it). -/
def save_file_as (st : St) (env : Env) : Bool × St :=
  let was_stash_mode := st.current_file = none
  match env.saveDialog with
  | none => (false, st)
  | some path =>
      let st1 := { st with current_file := some path }
      let r := save_file_named st1 env
      if r.1 then
        (true, if was_stash_mode then clear_stash_file r.2 else r.2)
      else (false, r.2)

/-- `PlanckEdit.save_file` (tkinter 384-397, planckedit-pyside 265-279,
plankedit-pyside 319-334): an untitled document routes to `save_file_as`,
a named one writes in place. -/
def save_file (st : St) (env : Env) : Bool × St :=
  match st.current_file with
  | none => save_file_as st env
  | some _ => save_file_named st env

/-- Result of `maybe_save`, with two observables next to the state: whether
the Unsaved Changes prompt was raised and whether `stash_file` was invoked. -/
structure MSOut where
  proceed : Bool
  st : St
  prompted : Bool
  stashed : Bool
deriving DecidableEq, Repr

/-- `PlanckEdit.maybe_save` (tkinter 411-428, planckedit-pyside 296-320,
plankedit-pyside 359-393): not dirty — proceed at once; dirty and untitled —
silently stash and proceed; dirty and named — raise the Save/Discard/Cancel
prompt: Save proceeds iff `save_file` succeeds, Discard proceeds, Cancel
does not. -/
def maybe_save (st : St) (env : Env) : MSOut :=
  if st.is_dirty = false then ⟨true, st, false, false⟩
  else
    match st.current_file with
    | none => ⟨true, stash_file st env, false, true⟩
    | some _ =>
        match env.promptResp with
        | .save =>
            let r := save_file st env
            ⟨r.1, r.2, true, false⟩
        | .discard => ⟨true, st, true, false⟩
        | .cancel => ⟨false, st, true, false⟩

/-- `PlanckEdit.new_file` (tkinter 363-368, planckedit-pyside 238-245,
plankedit-pyside 285-298): run `maybe_save`; if it does not proceed, stop;
otherwise clear the editor, drop the current file, clear the dirty flag and
refresh the title. -/
def new_file (st : St) (env : Env) : St :=
  let m := maybe_save st env
  if m.proceed then
    update_title { m.st with buffer := "", current_file := none, is_dirty := false }
  else m.st

/-- `PlanckEdit.open_file` (tkinter 370-382, planckedit-pyside 247-263,
plankedit-pyside 300-317): run `maybe_save`; if it proceeds, ask the open
dialog for a path; on a chosen path read the file — on success replace the
buffer, set the current file, clear the dirty flag and refresh the title;
on an I/O error print and change nothing. -/
def open_file (st : St) (env : Env) : St :=
  let m := maybe_save st env
  if m.proceed then
    match env.openDialog with
    | none => m.st
    | some path =>
        if env.readOk then
          update_title { m.st with buffer := env.readText,
                                   current_file := some path, is_dirty := false }
        else m.st
  else m.st

/-- `PlanckEdit.close_app` (tkinter 525-527) and the `closeEvent` handlers
(planckedit-pyside 414-418, plankedit-pyside 496-501): the window is
destroyed (event accepted) iff `maybe_save` proceeds. -/
def close_app (st : St) (env : Env) : Bool × St :=
  let m := maybe_save st env
  (m.proceed, m.st)

/-- `PlanckEdit.open_stash` of src/planckedit-tkinter.py (440-458) and
src/planckedit-pyside.py (336-360): run `maybe_save` only when a file is
open; if it proceeds, and the stash file exists, read it — on success load
its text, set `current_file` to None, clear the dirty flag and refresh the
title; a missing stash file only raises the "No stash file found" dialog. -/
def open_stash (st : St) (env : Env) : St :=
  let m := if st.current_file.isSome then maybe_save st env
           else ⟨true, st, false, false⟩
  if m.proceed then
    match m.st.stash with
    | none => m.st
    | some text =>
        if env.stashReadOk then
          update_title { m.st with buffer := text, current_file := none,
                                   is_dirty := false }
        else m.st
  else m.st

/-- `PlanckEdit.open_stash` of src/plankedit-pyside.py (419-447): same as
`open_stash` except `maybe_save` runs unconditionally, so an untitled dirty
buffer is first stashed and then read back. -/
def open_stash_pk (st : St) (env : Env) : St :=
  let m := maybe_save st env
  if m.proceed then
    match m.st.stash with
    | none => m.st
    | some text =>
        if env.stashReadOk then
          update_title { m.st with buffer := text, current_file := none,
                                   is_dirty := false }
        else m.st
  else m.st

/-- `PlanckEdit.load_startup_stash` (tkinter 460-471, planckedit-pyside
362-375, plankedit-pyside 449-465): at startup, if the stash file exists,
read it — on success load its text, set `current_file` to None, clear the
dirty flag and refresh the title; errors only print. -/
def load_startup_stash (st : St) (env : Env) : St :=
  match st.stash with
  | none => st
  | some text =>
      if env.stashReadOk then
        update_title { st with buffer := text, current_file := none,
                               is_dirty := false }
      else st

/-! ## Indent handling (Tab and Shift+Tab)

Buffers and lines are lists of characters; positions are character indices.
`tab_size` is carried as `Int`, as it is a JSON number taken from the config
dict without validation; Python `" " * n` yields the empty string for a
non-positive `n`, which `List.replicate n.toNat` matches. -/

/-- Python `" " * n` (and `c * n` generally): `n` copies for positive `n`,
empty for zero or negative `n`. -/
def pyRepeat (c : Char) (n : Int) : List Char :=
  List.replicate n.toNat c

/-- Insert `ins` at character position `pos`. -/
def insertAt (s : List Char) (pos : Nat) (ins : List Char) : List Char :=
  s.take pos ++ ins ++ s.drop pos

/-- Delete the characters at positions `[a, b)`. -/
def deleteRange (s : List Char) (a b : Nat) : List Char :=
  s.take a ++ s.drop b

/-- The Tab branch of `CodeEditor.keyPressEvent` in src/planckedit-pyside.py
(112-118) and src/plankedit-pyside.py (116-123), for `Qt.Key_Tab` with
`Qt.NoModifier`: insert `" " * tab_size` when `use_spaces`, else one tab
character, at the cursor.  `line`/`col` are the cursor block and column
(insertion into one block stands for insertion into the document, as
neither inserted text contains a newline). -/
def handle_tab_ps (tab_size : Int) (use_spaces : Bool) (line : List Char)
    (col : Nat) : List Char :=
  if use_spaces then insertAt line col (pyRepeat ' ' tab_size)
  else insertAt line col ['\t']

/-- `CodeEditor.handle_tab` of src/planckedit-tkinter.py (176-180): when
`use_spaces`, insert `" " * tab_size` at the insert mark and return "break";
otherwise `return None`, which defers to the Tk `Text` class binding for the
Tab key, and that binding inserts one tab character at the insert mark. -/
def handle_tab_tk (tab_size : Int) (use_spaces : Bool) (buffer : List Char)
    (pos : Nat) : List Char :=
  if use_spaces then insertAt buffer pos (pyRepeat ' ' tab_size)
  else insertAt buffer pos ['\t']

/-- The backward space scan shared by every Shift+Tab handler:

    for char in reversed(text_before_cursor):
        if char == ' ':
            count += 1
            if count == tab_size: break
        else: break

`cs` is the reversed text before the cursor, `acc` the count so far. -/
def countSpaces (tab_size : Int) : List Char → Nat → Nat
  | [], acc => acc
  | c :: rest, acc =>
      if c = ' ' then
        let acc1 := acc + 1
        if (acc1 : Int) = tab_size then acc1 else countSpaces tab_size rest acc1
      else acc

/-- The Backtab branch of `CodeEditor.keyPressEvent` in
src/planckedit-pyside.py (120-141) and src/plankedit-pyside.py (125-156):
with `use_spaces`, scan the text of the current block before the cursor for
trailing spaces (stopping at `tab_size`) and delete that many characters
with repeated `deletePreviousChar`; without, delete one character exactly
when `position_in_block > 0` and the character before the cursor is a tab. -/
def handle_backtab_ps (tab_size : Int) (use_spaces : Bool) (line : List Char)
    (col : Nat) : List Char :=
  let text_before_cursor := line.take col
  if use_spaces then
    let space_count := countSpaces tab_size text_before_cursor.reverse 0
    if space_count > 0 then deleteRange line (col - space_count) col else line
  else
    if col > 0 ∧ line.get? (col - 1) = some '\t' then
      deleteRange line (col - 1) col
    else line

/-- `CodeEditor.handle_backtab` of src/planckedit-tkinter.py (182-201), on
the whole buffer with the insert mark at character position `pos`.  In
spaces mode the code returns at once when the cursor column is 0, else scans
the current line text before the cursor (the characters after the last
newline before `pos`) and deletes the counted spaces.  In tab mode it reads
`text_area.get("insert-1c")` and deletes at `"insert-1c"` when that
character is a tab: Tk clamps the index `"insert-1c"` to `"1.0"` when the
insert mark is at the buffer start, so with `pos = 0` the code reads — and
deletes — the character AT position 0, i.e. the character after the cursor.
(`pos - 1` on `Nat` clamps the same way.) -/
def handle_backtab_tk (tab_size : Int) (use_spaces : Bool)
    (buffer : List Char) (pos : Nat) : List Char :=
  if use_spaces then
    let revLineBefore := (buffer.take pos).reverse.takeWhile (fun c => c ≠ '\n')
    if revLineBefore.length = 0 then buffer
    else
      let spaces_to_delete := countSpaces tab_size revLineBefore 0
      if spaces_to_delete > 0 then deleteRange buffer (pos - spaces_to_delete) pos
      else buffer
  else
    let idx := pos - 1
    match buffer.get? idx with
    | some c => if c = '\t' then deleteRange buffer idx (idx + 1) else buffer
    | none => buffer

/-! ## Supporting lemmas -/

theorem deleteRange_self (s : List Char) (a : Nat) : deleteRange s a a = s := by
  simp [deleteRange]

theorem insertAt_length (s : List Char) (pos : Nat) (ins : List Char) :
    (insertAt s pos ins).length = s.length + ins.length := by
  simp [insertAt]
  omega

theorem pyRepeat_natCast (c : Char) (n : Nat) :
    pyRepeat c (n : Int) = List.replicate n c := by
  simp [pyRepeat]

/-- The backward scan returns the lesser of the remaining budget and the
length of the leading space run, as long as the count so far is below the
(positive) tab size. -/
theorem countSpaces_eq_min (T : Int) (cs : List Char) (acc : Nat)
    (h : (acc : Int) < T) :
    countSpaces T cs acc
      = min T.toNat (acc + (cs.takeWhile (fun c => c == ' ')).length) := by
  induction cs generalizing acc with
  | nil =>
      simp only [countSpaces, List.takeWhile_nil, List.length_nil, Nat.add_zero]
      omega
  | cons c rest ih =>
      by_cases hc : c = ' '
      · subst hc
        have hstep : countSpaces T (' ' :: rest) acc
            = if ((acc + 1 : Nat) : Int) = T then acc + 1
              else countSpaces T rest (acc + 1) := by
          simp [countSpaces]
        have htw : List.takeWhile (fun c => c == ' ') (' ' :: rest)
            = ' ' :: List.takeWhile (fun c => c == ' ') rest := by
          simp [List.takeWhile_cons]
        rw [hstep, htw]
        by_cases hT : ((acc + 1 : Nat) : Int) = T
        · rw [if_pos hT]
          simp only [List.length_cons]
          omega
        · rw [if_neg hT, ih (acc + 1) (by omega)]
          simp only [List.length_cons]
          omega
      · have hb : (c == ' ') = false := by simp [hc]
        have hstep : countSpaces T (c :: rest) acc = acc := by
          simp [countSpaces, hc]
        have htw : List.takeWhile (fun c => c == ' ') (c :: rest) = [] := by
          simp [List.takeWhile_cons, hb]
        rw [hstep, htw]
        simp only [List.length_nil, Nat.add_zero]
        omega

/-- Spaces-mode Shift+Tab in the PySide variants deletes exactly
`min tab_size k` characters before the cursor, `k` being the length of the
maximal space run ending at the cursor, whenever the tab size is positive. -/
theorem backtab_ps_spaces_spec (T : Int) (hT : 1 ≤ T) (line : List Char)
    (col : Nat) :
    handle_backtab_ps T true line col =
      deleteRange line
        (col - min T.toNat
            (((line.take col).reverse.takeWhile (fun c => c == ' ')).length))
        col := by
  have h0 : ((0 : Nat) : Int) < T := by omega
  unfold handle_backtab_ps
  rw [if_pos rfl, countSpaces_eq_min T _ 0 h0]
  simp only [Nat.zero_add]
  by_cases h : 0 < min T.toNat
      (((line.take col).reverse.takeWhile (fun c => c == ' ')).length)
  · simp [h]
  · have hz : min T.toNat
        (((line.take col).reverse.takeWhile (fun c => c == ' ')).length) = 0 := by
      omega
    simp [hz, deleteRange_self]

/-- `maybe_save` never touches the stash file while a file is open: the
untitled branch is the only one that calls `stash_file`. -/
theorem maybe_save_stash_of_named (st : St) (env : Env)
    (h : st.current_file.isSome) :
    (maybe_save st env).st.stash = st.stash := by
  unfold maybe_save
  by_cases hd : st.is_dirty = false
  · simp [hd]
  · cases hc : st.current_file with
    | none => rw [hc] at h; simp at h
    | some f =>
        cases hp : env.promptResp
        · by_cases hw : env.writeOk = true
          · simp [hd, hc, hp, save_file, save_file_named, update_title, hw]
          · simp [hd, hc, hp, save_file, save_file_named, update_title, hw]
        · simp [hd, hc]
        · simp [hd, hc]

/-- Merge semantics of `load_config` on a parseable object: a key present in
the file takes the stored value, a key absent falls back to the default. -/
theorem load_config_tk_merge (e : Dict) (hnd : (e.map Prod.fst).Nodup)
    (k : String) :
    dictGet (load_config_tk (.object e)) k
      = match dictGet e k with
        | some v => some v
        | none => dictGet defaultConfig k := by
  simpa [load_config_tk] using dictGet_dictUpdate defaultConfig e k hnd

/-! ## The claims -/

/-- C5.  For every content of the config file, loading the settings returns a
complete settings mapping and never raises an error surfaced to the user —
the claim is right about the intent (and about the tkinter variant, whose
bare `except:` returns the defaults on any failure), but the PySide variants
catch only `(json.JSONDecodeError, IOError)`: a config file holding the
valid JSON `5` parses, and `default_config.update(5)` then raises a
`TypeError` that escapes `load_config` and crashes the program at startup,
instead of falling back to the defaults. -/
theorem pyside_load_config_raises_on_scalar_json :
    load_config_ps (.scalar 5) = .error "TypeError"
  ∧ load_config_tk (.scalar 5) = defaultConfig
  ∧ load_config_tk .absent = defaultConfig
  ∧ load_config_tk .invalid = defaultConfig
  ∧ load_config_ps .invalid = .ok defaultConfig := by
  exact ⟨rfl, rfl, rfl, rfl, rfl⟩

/-- C8 counterexample.  The claim that `tab_size` is between 1 and 16 in
every reachable state fails at `load_config`: a config file storing
`{"tab_size": 100}` is loaded verbatim — the loaded dict carries 100 and
`apply_settings` hands it to the editor. -/
theorem load_config_accepts_out_of_range_tab_size :
    tab_size_ok (load_config_tk (.object [("tab_size", .jint 100)])) = false
  ∧ dictGet (load_config_tk (.object [("tab_size", .jint 100)])) "tab_size"
      = some (.jint 100) := by
  exact ⟨by decide, by decide⟩

/-- C8 as amended.  The Set-Tab-Size dialog keeps `tab_size` within 1..16
(it preserves the invariant and establishes it whenever it stores a value),
and `load_config` yields a `tab_size` in 1..16 when the config file is
absent, corrupt, a bare number, lacks the key, or stores an integer already
in range — but not for arbitrary file content. -/
theorem tab_size_range_amended (d : Dict) (req : Option Int) (e : Dict)
    (hnd : (e.map Prod.fst).Nodup) :
    (tab_size_ok d = true → tab_size_ok (change_tab_size d req) = true)
  ∧ (∀ n : Int, askinteger_1_16 req = some n →
        tab_size_ok (change_tab_size d req) = true)
  ∧ tab_size_ok (load_config_tk .absent) = true
  ∧ tab_size_ok (load_config_tk .invalid) = true
  ∧ (∀ n : Int, tab_size_ok (load_config_tk (.scalar n)) = true)
  ∧ ((dictGet e "tab_size" = none ∨
        ∃ n : Int, dictGet e "tab_size" = some (.jint n) ∧ 1 ≤ n ∧ n ≤ 16) →
      tab_size_ok (load_config_tk (.object e)) = true) := by
  have hdialog : ∀ n : Int, askinteger_1_16 req = some n → 1 ≤ n ∧ n ≤ 16 := by
    intro n hn
    cases req with
    | none => simp [askinteger_1_16] at hn
    | some m =>
        by_cases hm : 1 ≤ m ∧ m ≤ 16
        · have hi : askinteger_1_16 (some m) = some m := by
            simp [askinteger_1_16, hm]
          rw [hi] at hn
          cases hn
          exact hm
        · have hi : askinteger_1_16 (some m) = none := by
            simp only [askinteger_1_16, if_neg hm]
          rw [hi] at hn
          cases hn
  refine ⟨?_, ?_, by decide, by decide, fun n => by simp [load_config_tk]; decide, ?_⟩
  · intro hd
    unfold change_tab_size
    cases hr : askinteger_1_16 req with
    | none => exact hd
    | some n =>
        have := hdialog n hr
        simp [tab_size_ok, dictGet_dictSet_self]
        omega
  · intro n hn
    unfold change_tab_size
    rw [hn]
    have := hdialog n hn
    simp [tab_size_ok, dictGet_dictSet_self]
    omega
  · intro hcase
    have hm := load_config_tk_merge e hnd "tab_size"
    rcases hcase with hnone | ⟨n, hsome, h1, h16⟩
    · rw [hnone] at hm
      simp only [tab_size_ok, hm]
      decide
    · rw [hsome] at hm
      simp only [tab_size_ok, hm]
      simp
      omega

/-- C8 witness. -/
theorem tab_size_range_amended_witness :
    tab_size_ok (change_tab_size defaultConfig (some 9)) = true
  ∧ tab_size_ok (load_config_tk (.object [("tab_size", .jint 12)])) = true := by
  refine ⟨?_, ?_⟩
  · exact (tab_size_range_amended defaultConfig (some 9) [] (by decide)).2.1 9 (by decide)
  · exact (tab_size_range_amended defaultConfig none [("tab_size", .jint 12)]
      (by decide)).2.2.2.2.2 (Or.inr ⟨12, by decide, by decide, by decide⟩)

/-- C10.  Stashing changes only the stash file on disk (to the buffer text)
and the window title: the current file, the dirty flag and the buffer are
untouched in every state — a dirty document stays dirty — and on a failed
write nothing at all changes. -/
theorem stash_frame (st : St) (env : Env) :
    (stash_file st env).current_file = st.current_file
  ∧ (stash_file st env).is_dirty = st.is_dirty
  ∧ (stash_file st env).buffer = st.buffer
  ∧ (st.is_dirty = true → (stash_file st env).is_dirty = true)
  ∧ (env.stashWriteOk = true →
        (stash_file st env).stash = some st.buffer
      ∧ (stash_file st env).title = "planckedit - Stashed!")
  ∧ (env.stashWriteOk = false → stash_file st env = st) := by
  unfold stash_file
  by_cases h : env.stashWriteOk = true
  · simp [h]
  · simp at h
    simp [h]

/-- C10 witness. -/
theorem stash_frame_witness :
    (stash_file ⟨some "f.txt", true, "body", none, "t"⟩
        ⟨.save, none, none, true, true, "", true, true⟩).is_dirty = true
  ∧ (stash_file ⟨some "f.txt", true, "body", none, "t"⟩
        ⟨.save, none, none, true, true, "", true, true⟩).stash = some "body" := by
  refine ⟨?_, ?_⟩
  · exact (stash_frame ⟨some "f.txt", true, "body", none, "t"⟩
      ⟨.save, none, none, true, true, "", true, true⟩).2.2.2.1 rfl
  · exact ((stash_frame ⟨some "f.txt", true, "body", none, "t"⟩
      ⟨.save, none, none, true, true, "", true, true⟩).2.2.2.2.1 rfl).1

/-- C1.  new/open/close all gate on `maybe_save`: while dirty with a named
current file it raises the save prompt (and does not stash); while dirty and
untitled it silently writes the buffer to the stash file and proceeds with
no prompt; while not dirty it proceeds at once with no prompt, no stash
write and an unchanged state.  When `maybe_save` refuses, `new_file` and
`open_file` do not transition, and the close event is accepted exactly when
`maybe_save` proceeds. -/
theorem maybe_save_prompt_policy (st : St) (env : Env) :
    (st.is_dirty = true → st.current_file ≠ none →
        (maybe_save st env).prompted = true ∧ (maybe_save st env).stashed = false)
  ∧ (st.is_dirty = true → st.current_file = none →
        (maybe_save st env).prompted = false
      ∧ (maybe_save st env).stashed = true
      ∧ (maybe_save st env).proceed = true
      ∧ (env.stashWriteOk = true →
            (maybe_save st env).st.stash = some st.buffer))
  ∧ (st.is_dirty = false → maybe_save st env = ⟨true, st, false, false⟩)
  ∧ ((maybe_save st env).proceed = false →
        new_file st env = (maybe_save st env).st)
  ∧ ((maybe_save st env).proceed = false →
        open_file st env = (maybe_save st env).st)
  ∧ close_app st env = ((maybe_save st env).proceed, (maybe_save st env).st) := by
  refine ⟨?_, ?_, ?_, ?_, ?_, rfl⟩
  · intro h1 h2
    cases hc : st.current_file with
    | none => exact absurd hc h2
    | some f =>
        cases hp : env.promptResp <;> simp [maybe_save, h1, hc, hp]
  · intro h1 h2
    refine ⟨by simp [maybe_save, h1, h2], by simp [maybe_save, h1, h2],
      by simp [maybe_save, h1, h2], ?_⟩
    intro hw
    simp [maybe_save, h1, h2, stash_file, hw]
  · intro h
    simp [maybe_save, h]
  · intro h
    simp [new_file, h]
  · intro h
    simp [open_file, h]

/-- C1 witness. -/
theorem maybe_save_prompt_policy_witness :
    (maybe_save ⟨some "f.txt", true, "b", none, "t"⟩
        ⟨.cancel, none, none, true, true, "", true, true⟩).prompted = true
  ∧ (maybe_save ⟨none, true, "b", none, "t"⟩
        ⟨.cancel, none, none, true, true, "", true, true⟩).stashed = true
  ∧ maybe_save ⟨some "f.txt", false, "b", none, "t"⟩
        ⟨.cancel, none, none, true, true, "", true, true⟩
      = ⟨true, ⟨some "f.txt", false, "b", none, "t"⟩, false, false⟩ := by
  refine ⟨?_, ?_, ?_⟩
  · exact ((maybe_save_prompt_policy ⟨some "f.txt", true, "b", none, "t"⟩
      ⟨.cancel, none, none, true, true, "", true, true⟩).1 rfl (by decide)).1
  · exact ((maybe_save_prompt_policy ⟨none, true, "b", none, "t"⟩
      ⟨.cancel, none, none, true, true, "", true, true⟩).2.1 rfl rfl).2.1
  · exact (maybe_save_prompt_policy ⟨some "f.txt", false, "b", none, "t"⟩
      ⟨.cancel, none, none, true, true, "", true, true⟩).2.2.1 rfl

/-- C2.  With the document untitled: a Save-As that completes successfully
leaves no stash file on disk; a cancelled or failed Save-As leaves the stash
file exactly as it was; and closing while dirty (the stash write
succeeding) writes the buffer to the stash file and accepts the close. -/
theorem saveas_promotes_and_close_stashes (st : St) (env : Env)
    (h : st.current_file = none) :
    ((save_file_as st env).1 = true → (save_file_as st env).2.stash = none)
  ∧ ((save_file_as st env).1 = false →
        (save_file_as st env).2.stash = st.stash)
  ∧ (st.is_dirty = true → env.stashWriteOk = true →
        (close_app st env).1 = true
      ∧ (close_app st env).2.stash = some st.buffer) := by
  refine ⟨?_, ?_, ?_⟩
  · intro hok
    cases hd : env.saveDialog with
    | none => simp [save_file_as, hd] at hok
    | some path =>
        by_cases hw : env.writeOk = true
        · simp [save_file_as, h, hd, save_file_named, hw, clear_stash_file]
        · simp [save_file_as, h, hd, save_file_named, hw] at hok
  · intro hfail
    cases hd : env.saveDialog with
    | none => simp [save_file_as, hd]
    | some path =>
        by_cases hw : env.writeOk = true
        · simp [save_file_as, h, hd, save_file_named, hw] at hfail
        · simp [save_file_as, h, hd, save_file_named, hw]
  · intro hdirty hstash
    simp [close_app, maybe_save, hdirty, h, stash_file, hstash]

/-- C2 witness. -/
theorem saveas_promotes_and_close_stashes_witness :
    (save_file_as ⟨none, true, "b", some "old", "t"⟩
        ⟨.save, some "n.txt", none, true, true, "", true, true⟩).2.stash = none
  ∧ (close_app ⟨none, true, "b", some "old", "t"⟩
        ⟨.save, some "n.txt", none, true, true, "", true, true⟩).2.stash
      = some "b" := by
  refine ⟨?_, ?_⟩
  · exact (saveas_promotes_and_close_stashes ⟨none, true, "b", some "old", "t"⟩
      ⟨.save, some "n.txt", none, true, true, "", true, true⟩ rfl).1 (by decide)
  · exact ((saveas_promotes_and_close_stashes ⟨none, true, "b", some "old", "t"⟩
      ⟨.save, some "n.txt", none, true, true, "", true, true⟩ rfl).2.2 rfl rfl).2

/-- C3.  A successful save clears the dirty flag (whether it went through
`save_file` directly or through `save_file_as`), and a successful Save-As
from the untitled state makes the chosen dialog path the current file. -/
theorem save_clears_dirty_and_names (st : St) (env : Env) :
    ((save_file st env).1 = true → (save_file st env).2.is_dirty = false)
  ∧ ((save_file_as st env).1 = true →
        (save_file_as st env).2.is_dirty = false)
  ∧ (st.current_file = none → (save_file_as st env).1 = true →
        (save_file_as st env).2.current_file = env.saveDialog
      ∧ env.saveDialog.isSome = true) := by
  have has : (save_file_as st env).1 = true →
      (save_file_as st env).2.is_dirty = false
    ∧ (save_file_as st env).2.current_file = env.saveDialog := by
    intro hok
    cases hd : env.saveDialog with
    | none => simp [save_file_as, hd] at hok
    | some path =>
        by_cases hw : env.writeOk = true
        · by_cases hn : st.current_file = none
          · simp [save_file_as, hd, hn, save_file_named, hw, clear_stash_file,
              update_title]
          · simp [save_file_as, hd, hn, save_file_named, hw, update_title]
        · simp [save_file_as, hd, save_file_named, hw] at hok
  refine ⟨?_, fun hok => (has hok).1, fun _ hok => ⟨(has hok).2, ?_⟩⟩
  · intro hok
    cases hc : st.current_file with
    | none =>
        have : save_file st env = save_file_as st env := by
          simp [save_file, hc]
        rw [this] at hok ⊢
        exact (has hok).1
    | some f =>
        by_cases hw : env.writeOk = true
        · simp [save_file, hc, save_file_named, hw, update_title]
        · simp [save_file, hc, save_file_named, hw] at hok
  · cases hd : env.saveDialog with
    | none => simp [save_file_as, hd] at hok
    | some path => rfl

/-- C3 witness. -/
theorem save_clears_dirty_and_names_witness :
    (save_file ⟨some "f.txt", true, "b", none, "t"⟩
        ⟨.save, none, none, true, true, "", true, true⟩).2.is_dirty = false
  ∧ (save_file_as ⟨none, true, "b", none, "t"⟩
        ⟨.save, some "n.txt", none, true, true, "", true, true⟩).2.current_file
      = some "n.txt" := by
  refine ⟨?_, ?_⟩
  · exact (save_clears_dirty_and_names ⟨some "f.txt", true, "b", none, "t"⟩
      ⟨.save, none, none, true, true, "", true, true⟩).1 (by decide)
  · exact ((save_clears_dirty_and_names ⟨none, true, "b", none, "t"⟩
      ⟨.save, some "n.txt", none, true, true, "", true, true⟩).2.2 rfl
      (by decide)).1

/-- C4 counterexample.  The claim that a failed Save-As leaves the current
file path unchanged is false: `save_file_as` assigns the chosen path to
`current_file` before attempting the write and never restores it.  Starting
untitled, choosing "a.txt" and having the write fail returns False with the
current file now "a.txt". -/
theorem failed_saveas_changes_current_file :
    (save_file_as ⟨none, true, "hello", some "old", "t"⟩
        ⟨.save, some "a.txt", none, false, true, "", true, true⟩).1 = false
  ∧ (save_file_as ⟨none, true, "hello", some "old", "t"⟩
        ⟨.save, some "a.txt", none, false, true, "", true, true⟩).2.current_file
      = some "a.txt" := by
  exact ⟨by decide, by decide⟩

/-- C4 as amended.  I/O errors are caught and swallowed: a failed in-place
save returns False and changes nothing, a failed open leaves the state where
`maybe_save` left it, a cancelled Save-As changes nothing, and a corrupt
config read yields the defaults — but a failed (non-cancelled) Save-As,
while leaving the dirty flag, buffer, stash and title unchanged, leaves the
current file path set to the chosen path rather than restoring it. -/
theorem io_failure_state_effects (st : St) (env : Env) :
    (env.writeOk = false → st.current_file ≠ none →
        save_file st env = (false, st))
  ∧ (env.readOk = false → open_file st env = (maybe_save st env).st)
  ∧ (env.writeOk = false → ∀ path, env.saveDialog = some path →
        (save_file_as st env).1 = false
      ∧ (save_file_as st env).2.is_dirty = st.is_dirty
      ∧ (save_file_as st env).2.buffer = st.buffer
      ∧ (save_file_as st env).2.stash = st.stash
      ∧ (save_file_as st env).2.title = st.title
      ∧ (save_file_as st env).2.current_file = some path)
  ∧ (env.saveDialog = none → save_file_as st env = (false, st))
  ∧ load_config_tk .invalid = defaultConfig := by
  refine ⟨?_, ?_, ?_, ?_, rfl⟩
  · intro hw hc
    cases hcf : st.current_file with
    | none => exact absurd hcf hc
    | some f => simp [save_file, hcf, save_file_named, hw]
  · intro hr
    simp only [open_file]
    split
    · cases hd : env.openDialog with
      | none => rfl
      | some p => simp [hr]
    · rfl
  · intro hw path hd
    simp [save_file_as, hd, save_file_named, hw]
  · intro hd
    simp [save_file_as, hd]

/-- C4 witness. -/
theorem io_failure_state_effects_witness :
    save_file ⟨some "f.txt", true, "b", none, "t"⟩
        ⟨.save, none, none, false, true, "", true, true⟩
      = (false, ⟨some "f.txt", true, "b", none, "t"⟩)
  ∧ (save_file_as ⟨none, true, "b", some "old", "t"⟩
        ⟨.save, some "a.txt", none, false, true, "", true, true⟩).2.stash
      = some "old" := by
  refine ⟨?_, ?_⟩
  · exact (io_failure_state_effects ⟨some "f.txt", true, "b", none, "t"⟩
      ⟨.save, none, none, false, true, "", true, true⟩).1 rfl (by decide)
  · exact ((io_failure_state_effects ⟨none, true, "b", some "old", "t"⟩
      ⟨.save, some "a.txt", none, false, true, "", true, true⟩).2.2.1 rfl
      "a.txt" rfl).2.2.2.1

/-- C6.  With no modifiers, Tab inserts exactly `tab_size` space characters
at the cursor when `use_spaces` is set and exactly one tab character
otherwise — in the PySide `keyPressEvent` handlers and in the tkinter
`handle_tab` (whose tab branch defers to the Tk default binding); the buffer
grows by exactly `tab_size` (resp. 1) characters, and changing `tab_size`
changes the length of every subsequent Tab insertion. -/
theorem tab_key_insertion (N M : Nat) (line buffer : List Char)
    (col pos : Nat) (hNM : N ≠ M) :
    handle_tab_ps (N : Int) true line col
        = line.take col ++ List.replicate N ' ' ++ line.drop col
  ∧ handle_tab_ps (N : Int) false line col
        = line.take col ++ ['\t'] ++ line.drop col
  ∧ handle_tab_tk (N : Int) true buffer pos
        = buffer.take pos ++ List.replicate N ' ' ++ buffer.drop pos
  ∧ handle_tab_tk (N : Int) false buffer pos
        = buffer.take pos ++ ['\t'] ++ buffer.drop pos
  ∧ (handle_tab_ps (N : Int) true line col).length = line.length + N
  ∧ (handle_tab_ps (N : Int) false line col).length = line.length + 1
  ∧ (handle_tab_ps (M : Int) true line col).length
      ≠ (handle_tab_ps (N : Int) true line col).length := by
  have hps : ∀ K : Nat, handle_tab_ps (K : Int) true line col
      = insertAt line col (List.replicate K ' ') := by
    intro K
    simp [handle_tab_ps, pyRepeat_natCast]
  have htk : handle_tab_tk (N : Int) true buffer pos
      = insertAt buffer pos (List.replicate N ' ') := by
    simp [handle_tab_tk, pyRepeat_natCast]
  refine ⟨?_, rfl, ?_, rfl, ?_, ?_, ?_⟩
  · rw [hps N]; rfl
  · rw [htk]; rfl
  · rw [hps N, insertAt_length]; simp
  · rw [show handle_tab_ps (N : Int) false line col
        = insertAt line col ['\t'] from rfl, insertAt_length]
    rfl
  · rw [hps N, hps M, insertAt_length, insertAt_length]
    simp only [List.length_replicate]
    omega

/-- C6 witness. -/
theorem tab_key_insertion_witness :
    handle_tab_ps ((4 : Nat) : Int) true "ab".data 1
      = "ab".data.take 1 ++ List.replicate 4 ' ' ++ "ab".data.drop 1
  ∧ (handle_tab_ps ((4 : Nat) : Int) true "ab".data 1).length
      = "ab".data.length + 4 := by
  refine ⟨?_, ?_⟩
  · exact (tab_key_insertion 4 2 "ab".data "xy".data 1 0 (by decide)).1
  · exact (tab_key_insertion 4 2 "ab".data "xy".data 1 0 (by decide)).2.2.2.2.1

/-- C7.  Shift+Tab in tab mode is claimed to delete one character exactly
when the character immediately before the cursor is a tab, and nothing
otherwise.  The PySide handlers satisfy this (they guard on
`position_in_block > 0`), but the tkinter `handle_backtab` lacks in its tab
branch the column-0 guard its own spaces branch has: Tk clamps the index
`"insert-1c"` to `"1.0"` when the insert mark is at the buffer start, so on
a buffer beginning with a tab and the cursor at position 0 the tkinter
handler reads — and deletes — the tab AFTER the cursor, where the claim
requires it to delete nothing. -/
theorem tkinter_backtab_deletes_after_cursor_at_start :
    handle_backtab_tk 4 false ['\t', 'x'] 0 = ['x']
  ∧ handle_backtab_ps 4 false ['\t', 'x'] 0 = ['\t', 'x'] := by
  exact ⟨by decide, by decide⟩

/-- C9.  After every successful stash load — Open-Stash in the tkinter
variant (and the identical planckedit-pyside one), Open-Stash in the
plankedit-pyside variant (which runs `maybe_save` unconditionally), and the
startup load — the current file is None, the modified flag is clear, and the
loaded text is the stash content; and on any untitled state a plain Save is
exactly Save-As. -/
theorem stash_load_resets_to_untitled (st : St) (env env2 : Env)
    (text : String) :
    (st.stash = some text → env.stashReadOk = true →
        (st.current_file.isSome = true → (maybe_save st env).proceed = true) →
        (open_stash st env).current_file = none
      ∧ (open_stash st env).is_dirty = false
      ∧ (open_stash st env).buffer = text)
  ∧ ((maybe_save st env).proceed = true →
        (maybe_save st env).st.stash = some text →
        env.stashReadOk = true →
        (open_stash_pk st env).current_file = none
      ∧ (open_stash_pk st env).is_dirty = false)
  ∧ (st.stash = some text → env.stashReadOk = true →
        (load_startup_stash st env).current_file = none
      ∧ (load_startup_stash st env).is_dirty = false
      ∧ (load_startup_stash st env).buffer = text)
  ∧ (∀ s : St, s.current_file = none → save_file s env2 = save_file_as s env2) := by
  refine ⟨?_, ?_, ?_, ?_⟩
  · intro hst hr hp
    by_cases hc : st.current_file.isSome = true
    · have hms : (maybe_save st env).st.stash = st.stash :=
        maybe_save_stash_of_named st env hc
      simp [open_stash, hc, hp hc, hms, hst, hr, update_title]
    · simp [open_stash, hc, hst, hr, update_title]
  · intro hp hms hr
    simp [open_stash_pk, hp, hms, hr, update_title]
  · intro hst hr
    simp [load_startup_stash, hst, hr, update_title]
  · intro s hs
    simp [save_file, hs]

/-- C9 witness. -/
theorem stash_load_resets_to_untitled_witness :
    (open_stash ⟨some "f.txt", false, "b", some "s", "t"⟩
        ⟨.cancel, none, none, true, true, "", true, true⟩).current_file = none
  ∧ (open_stash ⟨some "f.txt", false, "b", some "s", "t"⟩
        ⟨.cancel, none, none, true, true, "", true, true⟩).is_dirty = false := by
  refine ⟨?_, ?_⟩
  · exact ((stash_load_resets_to_untitled ⟨some "f.txt", false, "b", some "s", "t"⟩
      ⟨.cancel, none, none, true, true, "", true, true⟩
      ⟨.cancel, none, none, true, true, "", true, true⟩ "s").1 rfl rfl
      (fun _ => by decide)).1
  · exact ((stash_load_resets_to_untitled ⟨some "f.txt", false, "b", some "s", "t"⟩
      ⟨.cancel, none, none, true, true, "", true, true⟩
      ⟨.cancel, none, none, true, true, "", true, true⟩ "s").1 rfl rfl
      (fun _ => by decide)).2.1

end Planckedit
